import Mathlib

/-!
Verification of the game-state and buzzer-arbitration core of the metro-xmas
repository (backend/src/server.js and backend/src/db.js), as a shallow
embedding.  The SQLite tables (players, questions, buzz_queue, game_state)
become lists and a record; each HTTP handler becomes a pure function from the
database to either an error (the 4xx response) or the updated database plus
its response payload.  JavaScript truthiness on nullable string columns is
modelled explicitly (null or empty string is falsy); ISO-8601 timestamps are
modelled as naturals (their lexicographic order is their chronological
order); uuid generation and the wall clock are passed in as parameters.
-/

namespace MetroXmas

/-- Game phase, the status column of game_state (waiting | active | ended). -/
inductive Status where
  | waiting
  | active
  | ended
deriving DecidableEq, Repr

/-- The singleton game_state row (db.js table game_state, id = 1). -/
structure GameState where
  status : Status
  currentQuestionId : Option String
  currentCategory : Option String
  currentPoints : Option Int
  currentIsPlaceholder : Bool
  currentClueText : Option String
  currentAnswerText : Option String
  turnPlayerId : Option String
  buzzerLocked : Bool
  lastBuzzPlayerId : Option String
  lastBuzzTime : Option Nat
  questionReading : Bool
deriving DecidableEq, Repr

/-- A row of the players table. -/
structure Player where
  id : String
  name : String
  slug : String
  score : Int
  photoUrl : Option String
  createdAt : Nat
deriving DecidableEq, Repr

/-- A row of the questions table. -/
structure Question where
  id : String
  playerId : String
  questionText : String
  answer : String
  category : Option String
  points : Option Int
  selectedForGame : Bool
  usedInGame : Bool
  createdAt : Nat
deriving DecidableEq, Repr

/-- A row of the buzz_queue table (the uuid primary key is not modelled;
rows are identified positionally, which is faithful because uuids are
distinct). -/
structure BuzzEntry where
  playerId : String
  buzzTime : Nat
deriving DecidableEq, Repr

/-- An entry of the static default-question JSON pack. -/
structure DefaultQuestion where
  category : String
  points : Int
  questionText : String
  answer : String
deriving DecidableEq, Repr

/-- The whole SQLite database. -/
structure Db where
  players : List Player
  questions : List Question
  buzzQueue : List BuzzEntry
  game : GameState
deriving DecidableEq, Repr

/-- The error responses the handlers produce (HTTP status classes). -/
inductive ApiError where
  | badRequest (msg : String)
  | forbidden (msg : String)
  | notFound (msg : String)
  | conflict (msg : String)
deriving DecidableEq, Repr

/-- JavaScript String.prototype.toLowerCase restricted to the character
map (adequate for the ASCII category names the pack holds). -/
def jsToLower (s : String) : String := ⟨s.data.map Char.toLower⟩

/-- JavaScript String.prototype.trim: whitespace stripped from both ends. -/
def jsTrim (s : String) : String :=
  ⟨((s.data.dropWhile Char.isWhitespace).reverse.dropWhile Char.isWhitespace).reverse⟩

/-- JavaScript truthiness of a nullable string column: null and the empty
string are falsy. -/
def isTruthy : Option String → Bool
  | none => false
  | some s => s != ""

/-- The clue-active test used throughout server.js:
current_question_id truthy or current_is_placeholder truthy. -/
def clueActive (g : GameState) : Bool :=
  isTruthy g.currentQuestionId || g.currentIsPlaceholder

/-- Normalisation of a request category field, server.js select-card:
category truthy gives the trimmed string, otherwise null. -/
def normCategory : Option String → Option String
  | none => none
  | some s => if s = "" then none else some (jsTrim s)

/-- Truthiness normalisation of a nullable id field (questionId). -/
def normId : Option String → Option String
  | none => none
  | some s => if s = "" then none else some s

/-- JavaScript a-or-b on nullable strings, as in q.category or cat. -/
def orElseStr (a b : Option String) : Option String :=
  match a with
  | some s => if s = "" then b else some s
  | none => b

/-- Number.isFinite fallback on nullable points, as in select-card. -/
def orElseInt (a b : Option Int) : Option Int :=
  match a with
  | some p => some p
  | none => b

/-- server.js findDefaultQuestion: null unless category and points are
truthy finite values, otherwise the first pack entry whose trimmed
lowercased category and points match. -/
def findDefaultQuestion (pool : List DefaultQuestion) (category : Option String)
    (points : Option Int) : Option DefaultQuestion :=
  match category, points with
  | some c, some p =>
      if c = "" then none
      else pool.find? (fun q =>
        jsToLower (jsTrim q.category) == jsToLower (jsTrim c) && q.points == p)
  | _, _ => none

/-- The clue text stored for a placeholder tile: the fallback's
questionText when truthy, else the literal N/A. -/
def placeholderText : Option DefaultQuestion → String
  | some f => if f.questionText = "" then "N/A" else f.questionText
  | none => "N/A"

/-- The answer text stored for a placeholder tile: the fallback's answer
when truthy, else the literal N/A. -/
def placeholderAnswer : Option DefaultQuestion → String
  | some f => if f.answer = "" then "N/A" else f.answer
  | none => "N/A"

/-- server.js enqueueBuzz: idempotent per player, otherwise insert a new
row; returns whether a row was inserted together with the new table. -/
def enqueueBuzz (queue : List BuzzEntry) (playerId : String) (now : Nat) :
    Bool × List BuzzEntry :=
  if queue.any (fun e => e.playerId == playerId) then (false, queue)
  else (true, queue ++ [{ playerId := playerId, buzzTime := now }])

/-- server.js dequeueNextBuzz: remove and return the row with the smallest
buzz_time (first such row), or null when the table is empty. -/
def dequeueNextBuzz : List BuzzEntry → Option (BuzzEntry × List BuzzEntry)
  | [] => none
  | e :: rest =>
      match dequeueNextBuzz rest with
      | none => some (e, [])
      | some (m, rest2) =>
          if e.buzzTime ≤ m.buzzTime then some (e, rest) else some (m, e :: rest2)

/-- The length of listBuzzQueue, which joins buzz_queue with players, so
rows whose player no longer exists do not count. -/
def listBuzzQueueLen (db : Db) : Nat :=
  (db.buzzQueue.filter (fun e => db.players.any (fun p => p.id == e.playerId))).length

/-- The select-card request body. -/
structure SelectCardReq where
  questionId : Option String
  category : Option String
  points : Option Int
  force : Bool
  pickerPlayerId : Option String
deriving DecidableEq, Repr

/-- POST /api/game/select-card (server.js lines 643 to 726). -/
def selectCard (pool : List DefaultQuestion) (db : Db) (r : SelectCardReq) :
    Except ApiError Db :=
  let pts := r.points
  let cat := normCategory r.category
  let g := db.game
  if clueActive g && !r.force then
    .error (.conflict "A clue is already active")
  else if isTruthy g.turnPlayerId && !r.force
      && (!(isTruthy r.pickerPlayerId) || r.pickerPlayerId != g.turnPlayerId) then
    .error (.forbidden "Not your turn")
  else
    match normId r.questionId with
    | none =>
        let fallback := findDefaultQuestion pool cat pts
        .ok { db with
          buzzQueue := [],
          game := { g with
            currentQuestionId := none,
            currentCategory := cat,
            currentPoints := pts,
            currentIsPlaceholder := true,
            currentClueText := some (placeholderText fallback),
            currentAnswerText := some (placeholderAnswer fallback),
            buzzerLocked := false,
            lastBuzzPlayerId := none,
            lastBuzzTime := none } }
    | some qid =>
        match db.questions.find? (fun q => q.id == qid) with
        | none => .error (.notFound "Question not found")
        | some q =>
            if !r.force && !q.selectedForGame then
              .error (.badRequest "Question not selected")
            else if !r.force && q.usedInGame then
              .error (.conflict "Card already used")
            else
              .ok { db with
                questions := db.questions.map
                  (fun q2 => if q2.id == qid then { q2 with usedInGame := true } else q2),
                buzzQueue := [],
                game := { g with
                  currentQuestionId := some qid,
                  currentCategory := orElseStr q.category cat,
                  currentPoints := orElseInt q.points pts,
                  currentIsPlaceholder := false,
                  currentClueText := none,
                  currentAnswerText := none,
                  buzzerLocked := false,
                  lastBuzzPlayerId := none,
                  lastBuzzTime := none } }

/-- The JSON reply of POST /api/game/buzz. -/
structure BuzzReply where
  queued : Bool
  reason : Option String
  position : Option Nat
deriving DecidableEq, Repr

/-- POST /api/game/buzz (server.js lines 849 to 904).  Note the handler in
this revision performs no question_reading check. -/
def buzz (db : Db) (playerId : String) (now : Nat) :
    Except ApiError (BuzzReply × Db) :=
  if playerId = "" then .error (.badRequest "playerId is required")
  else match db.players.find? (fun p => p.id == playerId) with
  | none => .error (.notFound "Player not found")
  | some _ =>
      let g := db.game
      if g.status != Status.active then .error (.badRequest "Game is not active")
      else if !(clueActive g) then .error (.badRequest "No active clue")
      else if g.buzzerLocked then
        if g.lastBuzzPlayerId == some playerId then
          .ok ({ queued := false, reason := some "already_current", position := none }, db)
        else
          match enqueueBuzz db.buzzQueue playerId now with
          | (queuedFlag, q2) =>
            let db2 := { db with buzzQueue := q2 }
            .ok ({ queued := queuedFlag,
                   reason := if queuedFlag then none else some "already_queued",
                   position := some (listBuzzQueueLen db2) }, db2)
      else
        .ok ({ queued := false, reason := none, position := none },
          { db with game := { g with
            buzzerLocked := true,
            lastBuzzPlayerId := some playerId,
            lastBuzzTime := some now } })

/-- The delta computation of POST /api/admin/resolve-current: the
placeholder's stored points, or the catalog row's points (404 when the
referenced question row no longer exists). -/
def resolveDelta (db : Db) : Except ApiError Int :=
  if db.game.currentIsPlaceholder then
    .ok (db.game.currentPoints.getD 0)
  else
    match db.questions.find? (fun q => q.id == db.game.currentQuestionId.getD "") with
    | none => .error (.notFound "Question not found")
    | some q => .ok (q.points.getD 0)

/-- The scoreboard ordering of resolve-current: ORDER BY score DESC,
created_at ASC. -/
def scoreOrder (a b : Player) : Prop :=
  b.score < a.score ∨ (a.score = b.score ∧ a.createdAt ≤ b.createdAt)

instance : DecidableRel scoreOrder := fun a b => by
  unfold scoreOrder; exact inferInstance

/-- The scoreboard returned by resolve-current: the players table sorted by
score descending, ties broken by earliest registration. -/
def scoreboard (players : List Player) : List Player :=
  List.insertionSort scoreOrder players

/-- POST /api/admin/resolve-current (server.js lines 906 to 1007).  Note
this revision updates no score on a wrong answer.  Returns the updated
database together with the scores payload of the response. -/
def resolveCurrent (db : Db) (playerId : String) (correct : Bool) (nextNow : Nat) :
    Except ApiError (Db × List Player) :=
  if playerId = "" then .error (.badRequest "playerId and correct are required")
  else if !(clueActive db.game) then .error (.badRequest "No current question")
  else match resolveDelta db with
  | .error e => .error e
  | .ok delta =>
      let g := db.game
      let db2 :=
        if correct then
          { db with
            players := db.players.map
              (fun p => if p.id = playerId then { p with score := p.score + delta } else p),
            buzzQueue := [],
            game := { g with
              currentQuestionId := none,
              currentCategory := none,
              currentPoints := none,
              currentIsPlaceholder := false,
              currentClueText := none,
              currentAnswerText := none,
              turnPlayerId := some playerId,
              buzzerLocked := false,
              lastBuzzPlayerId := none,
              lastBuzzTime := none } }
        else
          match dequeueNextBuzz db.buzzQueue with
          | some (next, rest) =>
              { db with
                buzzQueue := rest,
                game := { g with
                  currentQuestionId := g.currentQuestionId,
                  currentCategory := g.currentCategory,
                  currentPoints := g.currentPoints,
                  currentIsPlaceholder := g.currentIsPlaceholder,
                  currentClueText := g.currentClueText,
                  currentAnswerText := g.currentAnswerText,
                  buzzerLocked := true,
                  lastBuzzPlayerId := some next.playerId,
                  lastBuzzTime := some nextNow } }
          | none =>
              { db with
                game := { g with
                  currentQuestionId := g.currentQuestionId,
                  currentCategory := g.currentCategory,
                  currentPoints := g.currentPoints,
                  currentIsPlaceholder := g.currentIsPlaceholder,
                  currentClueText := g.currentClueText,
                  currentAnswerText := g.currentAnswerText,
                  buzzerLocked := false,
                  lastBuzzPlayerId := none,
                  lastBuzzTime := none } }
      .ok (db2, scoreboard db2.players)

/-- server.js ensureSystemPlayer: the house player holding the seeded
default questions; inserted with score 0 when the slug house is free. -/
def ensureSystemPlayer (sysId : String) (now : Nat) (db : Db) : Player × Db :=
  match db.players.find? (fun p => p.slug == "house") with
  | some p => (p, db)
  | none =>
      let p : Player :=
        { id := sysId, name := "House Questions", slug := "house",
          score := 0, photoUrl := none, createdAt := now }
      (p, { db with players := db.players ++ [p] })

/-- The loop body of seedDefaultQuestions over the indexed pool: skip
entries with blank text, answer or category or zero points, skip entries
already present for the house player, insert the rest selected and unused.
The index feeds the uuid supply. -/
def seedLoop (sys : Player) (fresh : Nat → String) (now : Nat) :
    List (Nat × DefaultQuestion) → List Question → List Question
  | [], qs => qs
  | (i, q) :: rest, qs =>
      let cat := jsTrim q.category
      let qText := jsTrim q.questionText
      let ans := jsTrim q.answer
      if qText = "" || ans = "" || cat = "" || q.points == 0 then
        seedLoop sys fresh now rest qs
      else if qs.any (fun q2 => q2.playerId == sys.id && q2.questionText == qText
          && q2.answer == ans && q2.category == some cat && q2.points == some q.points) then
        seedLoop sys fresh now rest qs
      else
        seedLoop sys fresh now rest (qs ++ [{
          id := fresh i, playerId := sys.id, questionText := qText, answer := ans,
          category := some cat, points := some q.points,
          selectedForGame := true, usedInGame := false, createdAt := now }])

/-- server.js seedDefaultQuestions with selectForGame true, as called by
the start handler. -/
def seedDefaultQuestions (pool : List DefaultQuestion) (sysId : String)
    (fresh : Nat → String) (now : Nat) (db : Db) : Db :=
  let sysDb := ensureSystemPlayer sysId now db
  { sysDb.2 with
    questions := seedLoop sysDb.1 fresh now (pool.enum) sysDb.2.questions }

/-- POST /api/game/start (server.js lines 751 to 784): seed defaults when
no question is selected, mark the whole board unused, reset the clue, the
turn and the lock, clear the queue, set status active. -/
def startGame (pool : List DefaultQuestion) (sysId : String) (fresh : Nat → String)
    (now : Nat) (db : Db) : Db :=
  let db1 :=
    if db.questions.any (fun q => q.selectedForGame) then db
    else seedDefaultQuestions pool sysId fresh now db
  { db1 with
    questions := db1.questions.map (fun q => { q with usedInGame := false }),
    buzzQueue := [],
    game := { db1.game with
      status := Status.active,
      currentQuestionId := none,
      currentCategory := none,
      currentPoints := none,
      currentIsPlaceholder := false,
      currentClueText := none,
      currentAnswerText := none,
      turnPlayerId := none,
      buzzerLocked := false,
      lastBuzzPlayerId := none,
      lastBuzzTime := none } }

/-- POST /api/game/end (server.js lines 786 to 796): status ended, buzzer
forced locked, queue cleared; nothing else is touched. -/
def endGame (db : Db) : Db :=
  { db with
    buzzQueue := [],
    game := { db.game with status := Status.ended, buzzerLocked := true } }

/-- POST /api/game/reset (server.js lines 798 to 817): back to waiting,
clue, turn and lock cleared, queue cleared. -/
def resetGame (db : Db) : Db :=
  { db with
    buzzQueue := [],
    game := { db.game with
      status := Status.waiting,
      currentQuestionId := none,
      currentCategory := none,
      currentPoints := none,
      currentIsPlaceholder := false,
      currentClueText := none,
      currentAnswerText := none,
      turnPlayerId := none,
      buzzerLocked := false,
      lastBuzzPlayerId := none,
      lastBuzzTime := none } }

/-- POST /api/game/reset-board (server.js lines 728 to 745): every
questions row set unused, clue and lock cleared; status and turn_player_id
kept; the handler issues no buzz_queue delete. -/
def resetBoard (db : Db) : Db :=
  { db with
    questions := db.questions.map (fun q => { q with usedInGame := false }),
    game := { db.game with
      currentQuestionId := none,
      currentCategory := none,
      currentPoints := none,
      currentIsPlaceholder := false,
      currentClueText := none,
      currentAnswerText := none,
      buzzerLocked := false,
      lastBuzzPlayerId := none,
      lastBuzzTime := none } }

/-- POST /api/game/unlock-buzzer (server.js lines 837 to 847). -/
def unlockBuzzer (db : Db) : Db :=
  { db with
    buzzQueue := [],
    game := { db.game with
      buzzerLocked := false,
      lastBuzzPlayerId := none,
      lastBuzzTime := none } }

/-- DELETE /api/admin/players/:id (server.js lines 549 to 586): 404 when
the id is unknown; otherwise delete the player's questions and queued
buzzes, null the turn reference, release the lock when the deleted player
held it, and delete the player row. -/
def deletePlayer (db : Db) (id : String) : Except ApiError Db :=
  match db.players.find? (fun p => p.id == id) with
  | none => .error (.notFound "Player not found")
  | some _ =>
      let g := db.game
      let g1 := if g.turnPlayerId == some id then { g with turnPlayerId := none } else g
      let g2 :=
        if g.lastBuzzPlayerId == some id then
          { g1 with buzzerLocked := false, lastBuzzPlayerId := none, lastBuzzTime := none }
        else g1
      .ok { players := db.players.filter (fun p => p.id != id),
            questions := db.questions.filter (fun q => q.playerId != id),
            buzzQueue := db.buzzQueue.filter (fun e => e.playerId != id),
            game := g2 }

/-- The game_state row created by the db.js schema (all defaults). -/
def initialGameState : GameState :=
  { status := Status.waiting,
    currentQuestionId := none,
    currentCategory := none,
    currentPoints := none,
    currentIsPlaceholder := false,
    currentClueText := none,
    currentAnswerText := none,
    turnPlayerId := none,
    buzzerLocked := false,
    lastBuzzPlayerId := none,
    lastBuzzTime := none,
    questionReading := false }

/-- A fresh database: empty tables plus the singleton game_state row. -/
def initialDb : Db :=
  { players := [], questions := [], buzzQueue := [], game := initialGameState }

/-- One successful core operation, or an environment change to the two
external-collaborator tables (players and questions are owned by routine
CRUD routes outside the core; letting them change arbitrarily only makes
reachability larger, hence the invariant stronger). -/
inductive Step : Db → Db → Prop where
  | selectCardStep : ∀ db pool r db2,
      selectCard pool db r = Except.ok db2 → Step db db2
  | buzzStep : ∀ db pid now reply db2,
      buzz db pid now = Except.ok (reply, db2) → Step db db2
  | resolveStep : ∀ db pid correct nextNow db2 sc,
      resolveCurrent db pid correct nextNow = Except.ok (db2, sc) → Step db db2
  | startStep : ∀ db pool sysId fresh now,
      Step db (startGame pool sysId fresh now db)
  | endStep : ∀ db, Step db (endGame db)
  | resetStep : ∀ db, Step db (resetGame db)
  | resetBoardStep : ∀ db, Step db (resetBoard db)
  | unlockStep : ∀ db, Step db (unlockBuzzer db)
  | deleteStep : ∀ db id db2,
      deletePlayer db id = Except.ok db2 → Step db db2
  | envStep : ∀ db players2 questions2,
      Step db { db with players := players2, questions := questions2 }

/-- The states reachable from the fresh database through the core
operations. -/
inductive Reachable : Db → Prop where
  | init : Reachable initialDb
  | step : ∀ {a b : Db}, Reachable a → Step a b → Reachable b

/-- The lock invariant of spec section 3, weakened by the ended-game
lockout: a held lock has a holder and an active clue, except for the
deliberate buzzer_locked forced by the end handler. -/
def lockInv (g : GameState) : Prop :=
  g.buzzerLocked = true →
    (g.lastBuzzPlayerId ≠ none ∧ clueActive g = true) ∨ g.status = Status.ended

theorem lockInv_of_unlocked {g : GameState} (h : g.buzzerLocked = false) : lockInv g := by
  intro hl
  rw [h] at hl
  exact absurd hl (by simp)

theorem selectCard_ok_unlocked {pool : List DefaultQuestion} {db : Db} {r : SelectCardReq}
    {db2 : Db} (h : selectCard pool db r = Except.ok db2) :
    db2.game.buzzerLocked = false := by
  unfold selectCard at h
  dsimp only at h
  repeat' split at h
  any_goals exact Except.noConfusion h
  all_goals (injection h with h; subst h; rfl)

theorem buzz_ok_lockInv {db : Db} {pid : String} {now : Nat} {reply : BuzzReply}
    {db2 : Db} (h : buzz db pid now = Except.ok (reply, db2))
    (hI : lockInv db.game) : lockInv db2.game := by
  unfold buzz at h
  dsimp only at h
  repeat' split at h
  any_goals exact Except.noConfusion h
  all_goals (injection h with h; injection h with h1 h2; subst h2)
  all_goals intro hlk
  all_goals first
    | exact hI hlk
    | (refine Or.inl ⟨by simp, ?_⟩
       simp_all [clueActive]
       rcases Bool.eq_false_or_eq_true (isTruthy db.game.currentQuestionId) with hq | hq
       all_goals simp_all)

theorem resolveCurrent_ok_lockInv {db : Db} {pid : String} {correct : Bool} {nextNow : Nat}
    {db2 : Db} {sc : List Player}
    (h : resolveCurrent db pid correct nextNow = Except.ok (db2, sc)) :
    lockInv db2.game := by
  unfold resolveCurrent at h
  dsimp only at h
  repeat' split at h
  any_goals exact Except.noConfusion h
  all_goals (injection h with h; injection h with h1 h2; subst h1)
  all_goals first
    | exact lockInv_of_unlocked rfl
    | (intro hlk
       refine Or.inl ⟨by simp, ?_⟩
       simp_all [clueActive]
       rcases Bool.eq_false_or_eq_true (isTruthy db.game.currentQuestionId) with hq | hq
       all_goals simp_all)

theorem deletePlayer_ok_lockInv {db : Db} {id : String} {db2 : Db}
    (h : deletePlayer db id = Except.ok db2)
    (hI : lockInv db.game) : lockInv db2.game := by
  unfold deletePlayer at h
  dsimp only at h
  repeat' split at h
  any_goals exact Except.noConfusion h
  all_goals (injection h with h; subst h)
  all_goals intro hl
  all_goals first
    | exact Bool.noConfusion hl
    | {
        rcases hI hl with ⟨h1, h2⟩ | h3
        · exact Or.inl ⟨by simpa using h1, by simpa [clueActive] using h2⟩
        · exact Or.inr (by simpa using h3)
      }

theorem lockInv_step {a b : Db} (hI : lockInv a.game) (h : Step a b) : lockInv b.game := by
  cases h with
  | selectCardStep pool r db2 hok =>
      exact lockInv_of_unlocked (selectCard_ok_unlocked hok)
  | buzzStep pid now reply db2 hok => exact buzz_ok_lockInv hok hI
  | resolveStep pid correct nextNow db2 sc hok => exact resolveCurrent_ok_lockInv hok
  | startStep pool sysId fresh now => exact lockInv_of_unlocked rfl
  | endStep => exact fun _ => Or.inr rfl
  | resetStep => exact lockInv_of_unlocked rfl
  | resetBoardStep => exact lockInv_of_unlocked rfl
  | unlockStep => exact lockInv_of_unlocked rfl
  | deleteStep id db2 hok => exact deletePlayer_ok_lockInv hok hI
  | envStep players2 questions2 => exact hI

/-- Claim C1, counterexample: the end operation (POST /api/game/end)
forces buzzer_locked to 1 without setting last_buzz_player_id and without
any active clue, so the state reached from the fresh database by a single
endGame is reachable, has the buzzer locked, yet has no lock holder and no
active clue — refuting the claimed invariant as stated. -/
theorem C1_counterexample :
    Reachable (endGame initialDb) ∧
    (endGame initialDb).game.buzzerLocked = true ∧
    (endGame initialDb).game.lastBuzzPlayerId = none ∧
    clueActive (endGame initialDb).game = false :=
  ⟨Reachable.step Reachable.init (Step.endStep initialDb), rfl, rfl, rfl⟩

/-- Claim C1 (amended): for every state reachable from the initial game
state through the core operations, buzzerLocked = true implies that
lastBuzzPlayerId is set and a clue is currently active, unless the game
status is ended (the end operation deliberately forces the lock with no
holder as a lockout). -/
theorem C1_lockInv_reachable (db : Db) (h : Reachable db) : lockInv db.game := by
  induction h with
  | init => exact lockInv_of_unlocked rfl
  | step hra hs ih => exact lockInv_step ih hs

/-- Witness for C1: the amended invariant discharged at the concrete
reachable state produced by ending the fresh game. -/
theorem C1_lockInv_reachable_witness : lockInv (endGame initialDb).game :=
  C1_lockInv_reachable (endGame initialDb)
    (Reachable.step Reachable.init (Step.endStep initialDb))

/-- A database whose buzz queue holds one waiting entry, used to exhibit
that reset-board leaves the queue untouched. -/
def c6Db : Db :=
  { players := [{ id := "p1", name := "Ann", slug := "ann", score := 0,
                  photoUrl := none, createdAt := 1 }],
    questions := [],
    buzzQueue := [{ playerId := "p1", buzzTime := 7 }],
    game := { initialGameState with
      status := Status.active,
      currentIsPlaceholder := true,
      currentCategory := some "Movies",
      currentPoints := some 200,
      currentClueText := some "clue",
      currentAnswerText := some "answer",
      buzzerLocked := true,
      lastBuzzPlayerId := some "p2",
      lastBuzzTime := some 5 } }

/-- Claim C6, counterexample: the reset-board handler issues no buzz_queue
delete, so from a state with one queued buzz the queue still holds that
row afterwards, refuting the part of the claim that says resetBoard
empties the buzz queue. -/
theorem C6_counterexample :
    (resetBoard c6Db).buzzQueue = [{ playerId := "p1", buzzTime := 7 }] ∧
    ({ playerId := "p1", buzzTime := 7 } : BuzzEntry) :: [] ≠ ([] : List BuzzEntry) := by
  exact ⟨rfl, by simp⟩

/-- Claim C6 (amended): resetBoard clears every catalog entry's usedInGame
flag, clears the active clue and the lock, and leaves status and
turnPlayerId unchanged — but it leaves the buzz queue exactly as it was
(it does not empty it); players are untouched as well. -/
theorem C6_resetBoard_frame (db : Db) :
    (resetBoard db).questions = db.questions.map (fun q => { q with usedInGame := false }) ∧
    (∀ q ∈ (resetBoard db).questions, q.usedInGame = false) ∧
    (resetBoard db).game.currentQuestionId = none ∧
    (resetBoard db).game.currentCategory = none ∧
    (resetBoard db).game.currentPoints = none ∧
    (resetBoard db).game.currentIsPlaceholder = false ∧
    (resetBoard db).game.currentClueText = none ∧
    (resetBoard db).game.currentAnswerText = none ∧
    clueActive (resetBoard db).game = false ∧
    (resetBoard db).game.buzzerLocked = false ∧
    (resetBoard db).game.lastBuzzPlayerId = none ∧
    (resetBoard db).game.lastBuzzTime = none ∧
    (resetBoard db).game.status = db.game.status ∧
    (resetBoard db).game.turnPlayerId = db.game.turnPlayerId ∧
    (resetBoard db).game.questionReading = db.game.questionReading ∧
    (resetBoard db).buzzQueue = db.buzzQueue ∧
    (resetBoard db).players = db.players := by
  refine ⟨rfl, ?_, rfl, rfl, rfl, rfl, rfl, rfl, rfl, rfl, rfl, rfl, rfl, rfl, rfl, rfl, rfl⟩
  intro q hq
  simp only [resetBoard, List.mem_map] at hq
  obtain ⟨q0, hq0, hq1⟩ := hq
  rw [← hq1]

/-- A database with the game active, a placeholder clue on display, the
buzzer free, one registered player, and question_reading set. -/
def c2Db : Db :=
  { players := [{ id := "p1", name := "Ann", slug := "ann", score := 0,
                  photoUrl := none, createdAt := 1 }],
    questions := [],
    buzzQueue := [],
    game := { initialGameState with
      status := Status.active,
      currentIsPlaceholder := true,
      currentCategory := some "Movies",
      currentPoints := some 100,
      currentClueText := some "clue",
      currentAnswerText := some "answer",
      questionReading := true } }

/-- Claim C2, counterexample: the buzz handler of this revision performs
no question_reading check, so with the game active, a clue active and
questionReading true, a buzz from a known player does not fail — it
succeeds and acquires the lock, refuting the claim as stated. -/
theorem C2_counterexample :
    c2Db.game.questionReading = true ∧
    c2Db.game.status = Status.active ∧
    clueActive c2Db.game = true ∧
    buzz c2Db "p1" 5 =
      Except.ok ({ queued := false, reason := none, position := none },
        { c2Db with game := { c2Db.game with
            buzzerLocked := true, lastBuzzPlayerId := some "p1",
            lastBuzzTime := some 5 } }) := by
  refine ⟨rfl, rfl, rfl, ?_⟩
  rfl

/-- Claim C2 (amended): buzz never consults questionReading.  For every
known player, with the game active, a clue active and the buzzer free,
the buzz call succeeds and acquires the lock while questionReading is
true, and flipping questionReading to false gives the very same outcome. -/
theorem C2_buzz_ignores_reading (db : Db) (pid : String) (now : Nat)
    (hread : db.game.questionReading = true)
    (hpid : pid ≠ "")
    (hp : (db.players.find? (fun p => p.id == pid)).isSome = true)
    (hact : db.game.status = Status.active)
    (hclue : clueActive db.game = true)
    (hlock : db.game.buzzerLocked = false) :
    buzz db pid now =
      Except.ok ({ queued := false, reason := none, position := none },
        { db with game := { db.game with
            buzzerLocked := true, lastBuzzPlayerId := some pid,
            lastBuzzTime := some now } }) ∧
    buzz { db with game := { db.game with questionReading := false } } pid now =
      Except.ok ({ queued := false, reason := none, position := none },
        { db with game := { db.game with
            questionReading := false,
            buzzerLocked := true, lastBuzzPlayerId := some pid,
            lastBuzzTime := some now } }) := by
  obtain ⟨pl, hfind⟩ := Option.isSome_iff_exists.mp hp
  constructor <;>
    (unfold buzz
     simp [hpid, hfind, hact, hclue, hlock]
     try simpa [clueActive] using hclue)

/-- Witness for C2: the amended theorem discharged at the concrete
reading-window database, a known player and time 5. -/
theorem C2_buzz_ignores_reading_witness :
    buzz c2Db "p1" 5 =
      Except.ok ({ queued := false, reason := none, position := none },
        { c2Db with game := { c2Db.game with
            buzzerLocked := true, lastBuzzPlayerId := some "p1",
            lastBuzzTime := some 5 } }) ∧
    buzz { c2Db with game := { c2Db.game with questionReading := false } } "p1" 5 =
      Except.ok ({ queued := false, reason := none, position := none },
        { c2Db with game := { c2Db.game with
            questionReading := false,
            buzzerLocked := true, lastBuzzPlayerId := some "p1",
            lastBuzzTime := some 5 } }) :=
  C2_buzz_ignores_reading c2Db "p1" 5 rfl (by decide) (by decide) rfl rfl rfl

/-- The single registered player of the C3 scenario, with score 0. -/
def c3P1 : Player :=
  { id := "p1", name := "Ann", slug := "ann", score := 0,
    photoUrl := none, createdAt := 1 }

/-- A database with an active placeholder clue worth 200, locked to the
registered player, with an empty buzz queue. -/
def c3Db : Db :=
  { players := [c3P1],
    questions := [],
    buzzQueue := [],
    game := { initialGameState with
      status := Status.active,
      currentIsPlaceholder := true,
      currentCategory := some "Movies",
      currentPoints := some 200,
      currentClueText := some "clue",
      currentAnswerText := some "answer",
      buzzerLocked := true,
      lastBuzzPlayerId := some "p1",
      lastBuzzTime := some 3 } }

/-- The database after resolving wrong with an empty queue: the clue is
kept and the buzzer reopens; no score moves. -/
def c3DbAfter : Db :=
  { c3Db with game := { c3Db.game with
      buzzerLocked := false, lastBuzzPlayerId := none, lastBuzzTime := none } }

/-- Claim C3, counterexample: with an active clue worth 200 and the lock
held by the player with score 0, resolve(p1, correct:=false) leaves the
score at 0 — this revision of resolve-current never subtracts — while the
claim demands the score drop by exactly 200. -/
theorem C3_counterexample :
    c3Db.game.currentPoints = some 200 ∧
    resolveDelta c3Db = Except.ok 200 ∧
    c3P1.score = 0 ∧
    resolveCurrent c3Db "p1" false 9 = Except.ok (c3DbAfter, [c3P1]) ∧
    (0 : Int) ≠ 0 - 200 := by
  refine ⟨rfl, rfl, rfl, ?_, by decide⟩
  rfl

/-- Claim C3 (amended): with an active clue of value V, resolve(P,
correct:=true) adds exactly V to P's score; resolve(P, correct:=false)
leaves every player's score (indeed the whole players table) unchanged —
a miss costs nothing in this revision. -/
theorem C3_resolve_score (db : Db) (pid : String) (v : Int) (n : Nat)
    (hpid : pid ≠ "") (hclue : clueActive db.game = true)
    (hv : resolveDelta db = Except.ok v) :
    (∃ db1 sc1, resolveCurrent db pid true n = Except.ok (db1, sc1) ∧
        db1.players = db.players.map
          (fun p => if p.id = pid then { p with score := p.score + v } else p)) ∧
    (∃ db2 sc2, resolveCurrent db pid false n = Except.ok (db2, sc2) ∧
        db2.players = db.players) := by
  constructor
  · unfold resolveCurrent
    simp [hpid, hclue, hv]
  · unfold resolveCurrent
    simp only [hpid, hclue, hv, Bool.not_true, if_false]
    rcases hdq : dequeueNextBuzz db.buzzQueue with _ | ⟨e, rest⟩ <;>
      simp [hpid, hdq]

/-- Witness for C3: the amended theorem discharged at the concrete locked
placeholder-clue database, player p1, value 200 and time 9. -/
theorem C3_resolve_score_witness :
    (∃ db1 sc1, resolveCurrent c3Db "p1" true 9 = Except.ok (db1, sc1) ∧
        db1.players = c3Db.players.map
          (fun p => if p.id = "p1" then { p with score := p.score + 200 } else p)) ∧
    (∃ db2 sc2, resolveCurrent c3Db "p1" false 9 = Except.ok (db2, sc2) ∧
        db2.players = c3Db.players) :=
  C3_resolve_score c3Db "p1" 200 9 (by decide) rfl rfl

instance : IsTotal Player scoreOrder :=
  ⟨by intro a b; unfold scoreOrder; omega⟩

instance : IsTrans Player scoreOrder :=
  ⟨by intro a b c hab hbc; unfold scoreOrder at *; omega⟩

/-- The database produced by the correct branch of resolve-current. -/
def resolveCorrectDb (db : Db) (pid : String) (v : Int) : Db :=
  { db with
    players := db.players.map
      (fun p => if p.id = pid then { p with score := p.score + v } else p),
    buzzQueue := [],
    game := { db.game with
      currentQuestionId := none,
      currentCategory := none,
      currentPoints := none,
      currentIsPlaceholder := false,
      currentClueText := none,
      currentAnswerText := none,
      turnPlayerId := some pid,
      buzzerLocked := false,
      lastBuzzPlayerId := none,
      lastBuzzTime := none } }

/-- Claim C4: resolving correct with an active clue clears the clue back to
no-clue, hands the turn to the resolved player, clears the lock and the
queue, and returns a scoreboard that is a permutation of the updated
players table sorted by score descending with ties broken by earliest
registration. -/
theorem C4_resolve_correct (db : Db) (pid : String) (n : Nat) (v : Int)
    (hpid : pid ≠ "") (hclue : clueActive db.game = true)
    (hv : resolveDelta db = Except.ok v) :
    resolveCurrent db pid true n =
      Except.ok (resolveCorrectDb db pid v,
        scoreboard (resolveCorrectDb db pid v).players) ∧
    (resolveCorrectDb db pid v).game.currentQuestionId = none ∧
    (resolveCorrectDb db pid v).game.currentCategory = none ∧
    (resolveCorrectDb db pid v).game.currentPoints = none ∧
    (resolveCorrectDb db pid v).game.currentIsPlaceholder = false ∧
    (resolveCorrectDb db pid v).game.currentClueText = none ∧
    (resolveCorrectDb db pid v).game.currentAnswerText = none ∧
    clueActive (resolveCorrectDb db pid v).game = false ∧
    (resolveCorrectDb db pid v).game.turnPlayerId = some pid ∧
    (resolveCorrectDb db pid v).game.buzzerLocked = false ∧
    (resolveCorrectDb db pid v).game.lastBuzzPlayerId = none ∧
    (resolveCorrectDb db pid v).game.lastBuzzTime = none ∧
    (resolveCorrectDb db pid v).buzzQueue = [] ∧
    List.Sorted scoreOrder (scoreboard (resolveCorrectDb db pid v).players) ∧
    (scoreboard (resolveCorrectDb db pid v).players).Perm
      (resolveCorrectDb db pid v).players := by
  refine ⟨?_, rfl, rfl, rfl, rfl, rfl, rfl, rfl, rfl, rfl, rfl, rfl, rfl, ?_, ?_⟩
  · unfold resolveCurrent
    simp [hpid, hclue, hv, resolveCorrectDb]
  · exact List.sorted_insertionSort scoreOrder _
  · exact List.perm_insertionSort scoreOrder _

/-- A database with two registered players, an active placeholder clue
worth 200 locked to the first player, and a queued buzz for the second. -/
def c4Db : Db :=
  { players := [
      { id := "p1", name := "Ann", slug := "ann", score := 0,
        photoUrl := none, createdAt := 1 },
      { id := "p2", name := "Bob", slug := "bob", score := 300,
        photoUrl := none, createdAt := 2 }],
    questions := [],
    buzzQueue := [{ playerId := "p2", buzzTime := 6 }],
    game := { initialGameState with
      status := Status.active,
      currentIsPlaceholder := true,
      currentCategory := some "Movies",
      currentPoints := some 200,
      currentClueText := some "clue",
      currentAnswerText := some "answer",
      buzzerLocked := true,
      lastBuzzPlayerId := some "p1",
      lastBuzzTime := some 5 } }

/-- Witness for C4: the theorem discharged at the two-player locked
database, resolving p1 correct for 200 points at time 9. -/
theorem C4_resolve_correct_witness :
    resolveCurrent c4Db "p1" true 9 =
      Except.ok (resolveCorrectDb c4Db "p1" 200,
        scoreboard (resolveCorrectDb c4Db "p1" 200).players) ∧
    (resolveCorrectDb c4Db "p1" 200).game.currentQuestionId = none ∧
    (resolveCorrectDb c4Db "p1" 200).game.currentCategory = none ∧
    (resolveCorrectDb c4Db "p1" 200).game.currentPoints = none ∧
    (resolveCorrectDb c4Db "p1" 200).game.currentIsPlaceholder = false ∧
    (resolveCorrectDb c4Db "p1" 200).game.currentClueText = none ∧
    (resolveCorrectDb c4Db "p1" 200).game.currentAnswerText = none ∧
    clueActive (resolveCorrectDb c4Db "p1" 200).game = false ∧
    (resolveCorrectDb c4Db "p1" 200).game.turnPlayerId = some "p1" ∧
    (resolveCorrectDb c4Db "p1" 200).game.buzzerLocked = false ∧
    (resolveCorrectDb c4Db "p1" 200).game.lastBuzzPlayerId = none ∧
    (resolveCorrectDb c4Db "p1" 200).game.lastBuzzTime = none ∧
    (resolveCorrectDb c4Db "p1" 200).buzzQueue = [] ∧
    List.Sorted scoreOrder (scoreboard (resolveCorrectDb c4Db "p1" 200).players) ∧
    (scoreboard (resolveCorrectDb c4Db "p1" 200).players).Perm
      (resolveCorrectDb c4Db "p1" 200).players :=
  C4_resolve_correct c4Db "p1" 9 200 (by decide) rfl rfl

theorem dequeueNextBuzz_cons_isSome (e : BuzzEntry) (rest : List BuzzEntry) :
    (dequeueNextBuzz (e :: rest)).isSome = true := by
  unfold dequeueNextBuzz
  rcases dequeueNextBuzz rest with _ | ⟨m, rest2⟩
  · rfl
  · dsimp only
    split <;> rfl

theorem dequeueNextBuzz_eq_none {l : List BuzzEntry} :
    dequeueNextBuzz l = none ↔ l = [] := by
  cases l with
  | nil => simp [dequeueNextBuzz]
  | cons e rest =>
      constructor
      · intro h
        have hs := dequeueNextBuzz_cons_isSome e rest
        rw [h] at hs
        exact Bool.noConfusion hs
      · intro h
        exact List.noConfusion h

theorem dequeueNextBuzz_min {l : List BuzzEntry} {e : BuzzEntry} {rest : List BuzzEntry}
    (h : dequeueNextBuzz l = some (e, rest)) :
    ∀ x ∈ l, e.buzzTime ≤ x.buzzTime := by
  induction l generalizing e rest with
  | nil => exact absurd h (by simp [dequeueNextBuzz])
  | cons a t ih =>
      rcases hm : dequeueNextBuzz t with _ | ⟨m, rest2⟩
      · simp only [dequeueNextBuzz, hm] at h
        injection h with h
        injection h with h1 h2
        subst h1
        have ht : t = [] := dequeueNextBuzz_eq_none.mp hm
        subst ht
        intro x hx
        simp at hx
        subst hx
        exact le_refl _
      · have hmin := ih hm
        simp only [dequeueNextBuzz, hm] at h
        split at h
        · rename_i hle
          injection h with h
          injection h with h1 h2
          subst h1
          intro x hx
          rcases List.mem_cons.mp hx with hx | hx
          · subst hx; exact le_refl _
          · exact le_trans hle (hmin x hx)
        · rename_i hgt
          injection h with h
          injection h with h1 h2
          subst h1
          intro x hx
          rcases List.mem_cons.mp hx with hx | hx
          · subst hx; omega
          · exact hmin x hx

theorem dequeueNextBuzz_perm {l : List BuzzEntry} {e : BuzzEntry} {rest : List BuzzEntry}
    (h : dequeueNextBuzz l = some (e, rest)) :
    l.Perm (e :: rest) := by
  induction l generalizing e rest with
  | nil => exact absurd h (by simp [dequeueNextBuzz])
  | cons a t ih =>
      rcases hm : dequeueNextBuzz t with _ | ⟨m, rest2⟩
      · simp only [dequeueNextBuzz, hm] at h
        injection h with h
        injection h with h1 h2
        subst h1
        subst h2
        have ht : t = [] := dequeueNextBuzz_eq_none.mp hm
        subst ht
        exact List.Perm.refl _
      · simp only [dequeueNextBuzz, hm] at h
        split at h
        · injection h with h
          injection h with h1 h2
          subst h1
          subst h2
          exact List.Perm.refl _
        · injection h with h
          injection h with h1 h2
          subst h1
          subst h2
          exact (List.Perm.cons a (ih hm)).trans (List.Perm.swap m a rest2)

/-- The database produced by the wrong branch of resolve-current when a
queued player exists: same clue, lock moved to the dequeued player with a
fresh timestamp, that row removed from the queue. -/
def resolveWrongRelockDb (db : Db) (e : BuzzEntry) (rest : List BuzzEntry) (n : Nat) : Db :=
  { db with
    buzzQueue := rest,
    game := { db.game with
      buzzerLocked := true,
      lastBuzzPlayerId := some e.playerId,
      lastBuzzTime := some n } }

/-- The database produced by the wrong branch of resolve-current when the
queue is empty: same clue, buzzer reopened. -/
def resolveWrongUnlockDb (db : Db) : Db :=
  { db with
    game := { db.game with
      buzzerLocked := false,
      lastBuzzPlayerId := none,
      lastBuzzTime := none } }

/-- The game record of the C5 scenario: active placeholder clue worth 100,
locked to player x0 since time 0. -/
def c5Game : GameState :=
  { initialGameState with
    status := Status.active,
    currentIsPlaceholder := true,
    currentCategory := some "Cat",
    currentPoints := some 100,
    currentClueText := some "q",
    currentAnswerText := some "a",
    buzzerLocked := true,
    lastBuzzPlayerId := some "x0",
    lastBuzzTime := some 0 }

/-- The C5 scenario database: players A, B and C queued at times 1 < 2 < 3
while the lock is held. -/
def c5Db : Db :=
  { players := [], questions := [],
    buzzQueue := [{ playerId := "A", buzzTime := 1 },
                  { playerId := "B", buzzTime := 2 },
                  { playerId := "C", buzzTime := 3 }],
    game := c5Game }

/-- The scenario state after the first wrong resolution: locked to A. -/
def c5Db1 : Db :=
  { c5Db with
    buzzQueue := [{ playerId := "B", buzzTime := 2 }, { playerId := "C", buzzTime := 3 }],
    game := { c5Game with lastBuzzPlayerId := some "A", lastBuzzTime := some 10 } }

/-- The scenario state after the second wrong resolution: locked to B. -/
def c5Db2 : Db :=
  { c5Db with
    buzzQueue := [{ playerId := "C", buzzTime := 3 }],
    game := { c5Game with lastBuzzPlayerId := some "B", lastBuzzTime := some 11 } }

/-- The scenario state after the third wrong resolution: locked to C. -/
def c5Db3 : Db :=
  { c5Db with
    buzzQueue := [],
    game := { c5Game with lastBuzzPlayerId := some "C", lastBuzzTime := some 12 } }

/-- The scenario state after the fourth wrong resolution: unlocked, clue
still active. -/
def c5Db4 : Db :=
  { c5Db with
    buzzQueue := [],
    game := { c5Game with
      buzzerLocked := false, lastBuzzPlayerId := none, lastBuzzTime := none } }

/-- Claim C5: a wrong resolution keeps the clue fields unchanged; when the
queue is non-empty it removes an entry of minimal buzzTime and re-locks to
that player with the fresh timestamp, and when the queue is empty it
unlocks.  In particular, with buzzes from A, B, C at times 1 < 2 < 3 while
locked, consecutive wrong resolutions advance the lock to A, then B, then
C, and then unlock, with the clue still active throughout. -/
theorem C5_resolve_wrong (db : Db) (pid : String) (n : Nat) (v : Int)
    (hpid : pid ≠ "") (hclue : clueActive db.game = true)
    (hlock : db.game.buzzerLocked = true)
    (hv : resolveDelta db = Except.ok v) :
    ((∀ e rest, dequeueNextBuzz db.buzzQueue = some (e, rest) →
        resolveCurrent db pid false n =
          Except.ok (resolveWrongRelockDb db e rest n, scoreboard db.players) ∧
        (resolveWrongRelockDb db e rest n).game.currentQuestionId = db.game.currentQuestionId ∧
        (resolveWrongRelockDb db e rest n).game.currentCategory = db.game.currentCategory ∧
        (resolveWrongRelockDb db e rest n).game.currentPoints = db.game.currentPoints ∧
        (resolveWrongRelockDb db e rest n).game.currentIsPlaceholder = db.game.currentIsPlaceholder ∧
        (resolveWrongRelockDb db e rest n).game.currentClueText = db.game.currentClueText ∧
        (resolveWrongRelockDb db e rest n).game.currentAnswerText = db.game.currentAnswerText ∧
        clueActive (resolveWrongRelockDb db e rest n).game = true ∧
        (resolveWrongRelockDb db e rest n).game.buzzerLocked = true ∧
        (resolveWrongRelockDb db e rest n).game.lastBuzzPlayerId = some e.playerId ∧
        (resolveWrongRelockDb db e rest n).game.lastBuzzTime = some n ∧
        (resolveWrongRelockDb db e rest n).buzzQueue = rest ∧
        db.buzzQueue.Perm (e :: rest) ∧
        (∀ x ∈ db.buzzQueue, e.buzzTime ≤ x.buzzTime)) ∧
     (dequeueNextBuzz db.buzzQueue = none →
        db.buzzQueue = [] ∧
        resolveCurrent db pid false n =
          Except.ok (resolveWrongUnlockDb db, scoreboard db.players) ∧
        (resolveWrongUnlockDb db).game.currentQuestionId = db.game.currentQuestionId ∧
        (resolveWrongUnlockDb db).game.currentCategory = db.game.currentCategory ∧
        (resolveWrongUnlockDb db).game.currentPoints = db.game.currentPoints ∧
        (resolveWrongUnlockDb db).game.currentIsPlaceholder = db.game.currentIsPlaceholder ∧
        (resolveWrongUnlockDb db).game.currentClueText = db.game.currentClueText ∧
        (resolveWrongUnlockDb db).game.currentAnswerText = db.game.currentAnswerText ∧
        clueActive (resolveWrongUnlockDb db).game = true ∧
        (resolveWrongUnlockDb db).game.buzzerLocked = false ∧
        (resolveWrongUnlockDb db).game.lastBuzzPlayerId = none ∧
        (resolveWrongUnlockDb db).game.lastBuzzTime = none ∧
        (resolveWrongUnlockDb db).buzzQueue = db.buzzQueue)) ∧
    (resolveCurrent c5Db "x0" false 10 = Except.ok (c5Db1, []) ∧
     c5Db1.game.buzzerLocked = true ∧ c5Db1.game.lastBuzzPlayerId = some "A" ∧
     resolveCurrent c5Db1 "A" false 11 = Except.ok (c5Db2, []) ∧
     c5Db2.game.buzzerLocked = true ∧ c5Db2.game.lastBuzzPlayerId = some "B" ∧
     resolveCurrent c5Db2 "B" false 12 = Except.ok (c5Db3, []) ∧
     c5Db3.game.buzzerLocked = true ∧ c5Db3.game.lastBuzzPlayerId = some "C" ∧
     resolveCurrent c5Db3 "C" false 13 = Except.ok (c5Db4, []) ∧
     c5Db4.game.buzzerLocked = false ∧ c5Db4.game.lastBuzzPlayerId = none ∧
     clueActive c5Db4.game = true) := by
  refine ⟨⟨?_, ?_⟩, rfl, rfl, rfl, rfl, rfl, rfl, rfl, rfl, rfl, rfl, rfl, rfl, rfl⟩
  · intro e rest hdq
    refine ⟨?_, rfl, rfl, rfl, rfl, rfl, rfl, ?_, rfl, rfl, rfl, rfl,
      dequeueNextBuzz_perm hdq, dequeueNextBuzz_min hdq⟩
    · unfold resolveCurrent
      simp [hpid, hclue, hv, hdq, resolveWrongRelockDb]
    · simpa [clueActive, resolveWrongRelockDb] using hclue
  · intro hdq
    refine ⟨dequeueNextBuzz_eq_none.mp hdq, ?_, rfl, rfl, rfl, rfl, rfl, rfl, ?_,
      rfl, rfl, rfl, rfl⟩
    · unfold resolveCurrent
      simp [hpid, hclue, hv, hdq, resolveWrongUnlockDb]
    · simpa [clueActive, resolveWrongUnlockDb] using hclue

/-- Witness for C5: the theorem discharged at the concrete three-entry
queue; the dequeued entry is A at time 1 and the lock advances to A. -/
theorem C5_resolve_wrong_witness :
    resolveCurrent c5Db "x0" false 10 =
      Except.ok (resolveWrongRelockDb c5Db { playerId := "A", buzzTime := 1 }
        [{ playerId := "B", buzzTime := 2 }, { playerId := "C", buzzTime := 3 }] 10,
        scoreboard c5Db.players) :=
  ((C5_resolve_wrong c5Db "x0" 10 100 (by decide) rfl rfl rfl).1.1
    { playerId := "A", buzzTime := 1 }
    [{ playerId := "B", buzzTime := 2 }, { playerId := "C", buzzTime := 3 }] rfl).1

/-- The database produced by selecting an empty tile (placeholder path of
select-card): queue cleared, lock cleared, placeholder clue carrying the
fallback text and answer (or N/A). -/
def selectPlaceholderDb (pool : List DefaultQuestion) (db : Db) (c : Option String)
    (p : Option Int) : Db :=
  { db with
    buzzQueue := [],
    game := { db.game with
      currentQuestionId := none,
      currentCategory := normCategory c,
      currentPoints := p,
      currentIsPlaceholder := true,
      currentClueText := some (placeholderText (findDefaultQuestion pool (normCategory c) p)),
      currentAnswerText := some (placeholderAnswer (findDefaultQuestion pool (normCategory c) p)),
      buzzerLocked := false,
      lastBuzzPlayerId := none,
      lastBuzzTime := none } }

/-- Claim C7: a selectCard call without a questionId that passes the
conflict and turn checks produces an active placeholder clue (questionId
null), with the matching default-pack entry's text and answer when one
exists and the literal N/A for both otherwise; the catalog is untouched
(nothing marked used) and the queue and lock are cleared. -/
theorem C7_empty_tile (pool : List DefaultQuestion) (db : Db) (c : Option String)
    (p : Option Int) (f : Bool) (picker : Option String)
    (h1 : (clueActive db.game && !f) = false)
    (h2 : (isTruthy db.game.turnPlayerId && !f
        && (!(isTruthy picker) || picker != db.game.turnPlayerId)) = false) :
    selectCard pool db
        { questionId := none, category := c, points := p,
          force := f, pickerPlayerId := picker } =
      Except.ok (selectPlaceholderDb pool db c p) ∧
    (selectPlaceholderDb pool db c p).questions = db.questions ∧
    (selectPlaceholderDb pool db c p).buzzQueue = [] ∧
    (selectPlaceholderDb pool db c p).game.buzzerLocked = false ∧
    (selectPlaceholderDb pool db c p).game.lastBuzzPlayerId = none ∧
    (selectPlaceholderDb pool db c p).game.lastBuzzTime = none ∧
    (selectPlaceholderDb pool db c p).game.currentIsPlaceholder = true ∧
    (selectPlaceholderDb pool db c p).game.currentQuestionId = none ∧
    (∀ e, findDefaultQuestion pool (normCategory c) p = some e →
        e.questionText ≠ "" → e.answer ≠ "" →
        (selectPlaceholderDb pool db c p).game.currentClueText = some e.questionText ∧
        (selectPlaceholderDb pool db c p).game.currentAnswerText = some e.answer) ∧
    (findDefaultQuestion pool (normCategory c) p = none →
        (selectPlaceholderDb pool db c p).game.currentClueText = some "N/A" ∧
        (selectPlaceholderDb pool db c p).game.currentAnswerText = some "N/A") := by
  refine ⟨?_, rfl, rfl, rfl, rfl, rfl, rfl, rfl, ?_, ?_⟩
  · unfold selectCard
    simp [h1, h2, selectPlaceholderDb, normId]
  · intro e he hqt ha
    constructor
    · show some (placeholderText (findDefaultQuestion pool (normCategory c) p)) = _
      rw [he]
      simp [placeholderText, hqt]
    · show some (placeholderAnswer (findDefaultQuestion pool (normCategory c) p)) = _
      rw [he]
      simp [placeholderAnswer, ha]
  · intro he
    constructor
    · show some (placeholderText (findDefaultQuestion pool (normCategory c) p)) = _
      rw [he]
      rfl
    · show some (placeholderAnswer (findDefaultQuestion pool (normCategory c) p)) = _
      rw [he]
      rfl

/-- A one-entry default pack holding the Disney and Pixar 200 tile with
answer Olaf, the scenario of spec section 8. -/
def c7Pool : List DefaultQuestion :=
  [{ category := "Disney & Pixar", points := 200,
     questionText := "This Frozen snowman loves warm hugs", answer := "Olaf" }]

/-- Witness for C7: the theorem discharged twice on the fresh database —
at the Disney and Pixar 200 tile, whose fallback exists and yields Olaf,
and at a category absent from the pack, which yields N/A for both texts. -/
theorem C7_empty_tile_witness :
    selectCard c7Pool initialDb
        { questionId := none, category := some "Disney & Pixar",
          points := some 200, force := false, pickerPlayerId := none } =
      Except.ok (selectPlaceholderDb c7Pool initialDb (some "Disney & Pixar") (some 200)) ∧
    (selectPlaceholderDb c7Pool initialDb (some "Disney & Pixar") (some 200)).game.currentClueText =
      some "This Frozen snowman loves warm hugs" ∧
    (selectPlaceholderDb c7Pool initialDb (some "Disney & Pixar") (some 200)).game.currentAnswerText =
      some "Olaf" ∧
    selectCard c7Pool initialDb
        { questionId := none, category := some "Games",
          points := some 500, force := false, pickerPlayerId := none } =
      Except.ok (selectPlaceholderDb c7Pool initialDb (some "Games") (some 500)) ∧
    (selectPlaceholderDb c7Pool initialDb (some "Games") (some 500)).game.currentClueText =
      some "N/A" ∧
    (selectPlaceholderDb c7Pool initialDb (some "Games") (some 500)).game.currentAnswerText =
      some "N/A" :=
  ⟨(C7_empty_tile c7Pool initialDb (some "Disney & Pixar") (some 200) false none rfl rfl).1,
   rfl, rfl,
   (C7_empty_tile c7Pool initialDb (some "Games") (some 500) false none rfl rfl).1,
   rfl, rfl⟩

/-- Claim C8: with a turn holder P set and no active clue, a selectCard
without force whose pickerPlayerId is absent, empty or different from P
fails with the permission error (leaving the database unchanged, as every
error path returns before any write), while the same call with
pickerPlayerId = P succeeds. -/
theorem C8_turn_enforcement (pool : List DefaultQuestion) (db : Db) (P : String)
    (qid c : Option String) (p : Option Int) (picker : Option String)
    (hturn : db.game.turnPlayerId = some P) (hP : P ≠ "")
    (hclue : clueActive db.game = false) :
    (¬(isTruthy picker = true ∧ picker = some P) →
        selectCard pool db
          { questionId := qid, category := c, points := p,
            force := false, pickerPlayerId := picker } =
          Except.error (ApiError.forbidden "Not your turn")) ∧
    selectCard pool db
        { questionId := none, category := c, points := p,
          force := false, pickerPlayerId := some P } =
      Except.ok (selectPlaceholderDb pool db c p) := by
  have hc1 : (clueActive db.game && !false) = false := by rw [hclue]; rfl
  have hPP : isTruthy (some P) = true := by simp [isTruthy, hP]
  constructor
  · intro hnp
    have hcond : (isTruthy db.game.turnPlayerId && !false
        && (!(isTruthy picker) || picker != db.game.turnPlayerId)) = true := by
      rw [hturn]
      by_cases hpk : picker = some P
      · have hb : isTruthy picker = false := by
          cases hbb : isTruthy picker
          · rfl
          · exact absurd ⟨hbb, hpk⟩ hnp
        simp [hPP, hb]
      · simp [hPP, hpk]
    unfold selectCard
    dsimp only
    rw [hc1, hcond]
    simp
  · have hcond2 : (isTruthy db.game.turnPlayerId && !false
        && (!(isTruthy (some P)) || some P != db.game.turnPlayerId)) = false := by
      rw [hturn]
      simp [hPP]
    unfold selectCard
    dsimp only
    rw [hc1, hcond2]
    simp [normId, selectPlaceholderDb]

/-- A database with the game active, no clue, the turn held by p1 and two
registered players. -/
def c8Db : Db :=
  { players := [
      { id := "p1", name := "Ann", slug := "ann", score := 0,
        photoUrl := none, createdAt := 1 },
      { id := "p2", name := "Bob", slug := "bob", score := 0,
        photoUrl := none, createdAt := 2 }],
    questions := [],
    buzzQueue := [],
    game := { initialGameState with
      status := Status.active,
      turnPlayerId := some "p1" } }

/-- Witness for C8: with the turn held by p1, the pick by p2 fails with
the permission error and the pick by p1 succeeds. -/
theorem C8_turn_enforcement_witness :
    selectCard c7Pool c8Db
        { questionId := none, category := some "Disney & Pixar",
          points := some 200, force := false, pickerPlayerId := some "p2" } =
      Except.error (ApiError.forbidden "Not your turn") ∧
    selectCard c7Pool c8Db
        { questionId := none, category := some "Disney & Pixar",
          points := some 200, force := false, pickerPlayerId := some "p1" } =
      Except.ok (selectPlaceholderDb c7Pool c8Db (some "Disney & Pixar") (some 200)) :=
  ⟨(C8_turn_enforcement c7Pool c8Db "p1" none (some "Disney & Pixar") (some 200)
      (some "p2") rfl (by decide) rfl).1
      (fun hcontra => absurd hcontra.2 (by decide)),
   (C8_turn_enforcement c7Pool c8Db "p1" none (some "Disney & Pixar") (some 200)
      (some "p1") rfl (by decide) rfl).2⟩

/-- The registered player of the C9 databases. -/
def c9P1 : Player :=
  { id := "p1", name := "Ann", slug := "ann", score := 5,
    photoUrl := none, createdAt := 1 }

/-- A database whose active clue references a catalog row that no longer
exists (reachable: select a player's question, then delete that player,
which deletes their questions but leaves current_question_id). -/
def c9Db : Db :=
  { players := [c9P1], questions := [], buzzQueue := [],
    game := { initialGameState with
      status := Status.active,
      currentQuestionId := some "q9" } }

/-- A database with an active placeholder clue worth 100. -/
def c9Db2 : Db :=
  { players := [c9P1], questions := [], buzzQueue := [],
    game := { initialGameState with
      status := Status.active,
      currentIsPlaceholder := true,
      currentPoints := some 100 } }

/-- Claim C9, counterexample: resolve(playerId, true) does not succeed for
every state with an active clue and every playerId string — it 404s when
the active clue's question row is gone, and it 400s on the empty playerId
string, both concrete states with an active clue. -/
theorem C9_counterexample :
    clueActive c9Db.game = true ∧
    resolveCurrent c9Db "ghost" true 0 =
      Except.error (ApiError.notFound "Question not found") ∧
    clueActive c9Db2.game = true ∧
    resolveCurrent c9Db2 "" true 0 =
      Except.error (ApiError.badRequest "playerId and correct are required") :=
  ⟨rfl, rfl, rfl, rfl⟩

/-- Claim C9 (amended): resolve never validates that playerId names an
existing player.  For every state whose active clue still resolves to a
point value (a placeholder, or a catalog row that exists) and every
non-empty playerId matching no player, resolve(playerId, true) succeeds,
clears the clue, sets turnPlayerId to the nonexistent id, and the score
update touches zero rows (the players table is unchanged). -/
theorem C9_resolve_unknown_player (db : Db) (pid : String) (n : Nat) (v : Int)
    (hpid : pid ≠ "") (hclue : clueActive db.game = true)
    (hv : resolveDelta db = Except.ok v)
    (hmiss : ∀ p ∈ db.players, p.id ≠ pid) :
    resolveCurrent db pid true n =
      Except.ok (resolveCorrectDb db pid v,
        scoreboard (resolveCorrectDb db pid v).players) ∧
    (resolveCorrectDb db pid v).players = db.players ∧
    clueActive (resolveCorrectDb db pid v).game = false ∧
    (resolveCorrectDb db pid v).game.turnPlayerId = some pid := by
  refine ⟨?_, ?_, rfl, rfl⟩
  · unfold resolveCurrent
    simp [hpid, hclue, hv, resolveCorrectDb]
  · show db.players.map _ = db.players
    have hcongr : ∀ p ∈ db.players,
        (if p.id = pid then { p with score := p.score + v } else p) = p := by
      intro p hp
      simp [hmiss p hp]
    calc db.players.map (fun p => if p.id = pid then { p with score := p.score + v } else p)
        = db.players.map id := List.map_congr_left (by simpa using hcongr)
      _ = db.players := List.map_id db.players

/-- Witness for C9: the amended theorem discharged at the placeholder-clue
database and the unknown id ghost. -/
theorem C9_resolve_unknown_player_witness :
    resolveCurrent c9Db2 "ghost" true 0 =
      Except.ok (resolveCorrectDb c9Db2 "ghost" 100,
        scoreboard (resolveCorrectDb c9Db2 "ghost" 100).players) ∧
    (resolveCorrectDb c9Db2 "ghost" 100).players = c9Db2.players ∧
    clueActive (resolveCorrectDb c9Db2 "ghost" 100).game = false ∧
    (resolveCorrectDb c9Db2 "ghost" 100).game.turnPlayerId = some "ghost" :=
  C9_resolve_unknown_player c9Db2 "ghost" 0 100 (by decide) rfl rfl (by decide)

/-- Claim C10: deleting an existing player removes all of that player's
buzz-queue rows, unlocks the buzzer when the deleted player held the lock,
clears the turn when they held it, and afterwards neither
lastBuzzPlayerId nor turnPlayerId nor any queue row nor any player row
references the deleted id; status and the clue are untouched. -/
theorem C10_delete_player_refs (db : Db) (id : String)
    (hp : (db.players.find? (fun p => p.id == id)).isSome = true) :
    ∃ db2, deletePlayer db id = Except.ok db2 ∧
      db2.buzzQueue = db.buzzQueue.filter (fun e => e.playerId != id) ∧
      (∀ e ∈ db2.buzzQueue, e.playerId ≠ id) ∧
      (db.game.lastBuzzPlayerId = some id →
        db2.game.buzzerLocked = false ∧ db2.game.lastBuzzPlayerId = none ∧
        db2.game.lastBuzzTime = none) ∧
      (db.game.turnPlayerId = some id → db2.game.turnPlayerId = none) ∧
      db2.game.lastBuzzPlayerId ≠ some id ∧
      db2.game.turnPlayerId ≠ some id ∧
      (∀ p ∈ db2.players, p.id ≠ id) ∧
      db2.game.status = db.game.status ∧
      db2.game.currentQuestionId = db.game.currentQuestionId ∧
      db2.game.currentIsPlaceholder = db.game.currentIsPlaceholder := by
  obtain ⟨pl, hfind⟩ := Option.isSome_iff_exists.mp hp
  unfold deletePlayer
  rw [hfind]
  dsimp only
  by_cases hct : db.game.turnPlayerId = some id <;>
    by_cases hcl : db.game.lastBuzzPlayerId = some id <;>
    refine ⟨_, rfl, rfl, ?_, ?_, ?_, ?_, ?_, ?_, ?_, ?_⟩ <;>
    simp_all [List.mem_filter]

/-- The C10 witness database: two players, queue rows for both, the lock
and the turn both held by p1. -/
def c10Db : Db :=
  { players := [
      { id := "p1", name := "Ann", slug := "ann", score := 0,
        photoUrl := none, createdAt := 1 },
      { id := "p2", name := "Bob", slug := "bob", score := 0,
        photoUrl := none, createdAt := 2 }],
    questions := [
      { id := "q1", playerId := "p1", questionText := "t", answer := "a",
        category := some "Cat", points := some 100, selectedForGame := true,
        usedInGame := false, createdAt := 1 }],
    buzzQueue := [{ playerId := "p1", buzzTime := 1 }, { playerId := "p2", buzzTime := 2 }],
    game := { initialGameState with
      status := Status.active,
      currentIsPlaceholder := true,
      currentPoints := some 100,
      turnPlayerId := some "p1",
      buzzerLocked := true,
      lastBuzzPlayerId := some "p1",
      lastBuzzTime := some 3 } }

/-- Witness for C10: the theorem discharged at the concrete database where
p1 holds the lock, the turn and a queue row, deleting p1. -/
theorem C10_delete_player_refs_witness :
    ∃ db2, deletePlayer c10Db "p1" = Except.ok db2 ∧
      db2.buzzQueue = c10Db.buzzQueue.filter (fun e => e.playerId != "p1") ∧
      (∀ e ∈ db2.buzzQueue, e.playerId ≠ "p1") ∧
      (c10Db.game.lastBuzzPlayerId = some "p1" →
        db2.game.buzzerLocked = false ∧ db2.game.lastBuzzPlayerId = none ∧
        db2.game.lastBuzzTime = none) ∧
      (c10Db.game.turnPlayerId = some "p1" → db2.game.turnPlayerId = none) ∧
      db2.game.lastBuzzPlayerId ≠ some "p1" ∧
      db2.game.turnPlayerId ≠ some "p1" ∧
      (∀ p ∈ db2.players, p.id ≠ "p1") ∧
      db2.game.status = c10Db.game.status ∧
      db2.game.currentQuestionId = c10Db.game.currentQuestionId ∧
      db2.game.currentIsPlaceholder = c10Db.game.currentIsPlaceholder :=
  C10_delete_player_refs c10Db "p1" rfl

end MetroXmas
